import Mathlib

/-!
Shallow embedding of the ARM UART driver
(`src/component/soc/common/trusted-firmware-m/platform/ext/target/realtek/`
`amebadplus/native_drivers/arm_uart_drv.h`).

The tree contains only the interface header `arm_uart_drv.h`; the
implementation file `arm_uart_drv.c` is absent.  The data structures and the
two enumerations below are translated from the header.  The behaviour of every
operation is modelled from the spec (spec.md §4.1 operation table, §4.1 key
algorithm, §6 register map, §7 error handling), as marked on each definition.
Machine integers are modelled as `Nat`; none of the operations can overflow a
`uint32_t` shadow field because they only store values the caller passed in or
bit-masked register words.
-/

/-- Device configuration structure, from `struct arm_uart_dev_cfg_t`
(arm_uart_drv.h lines 32-35): base address and default baudrate, both
`const`. -/
structure arm_uart_dev_cfg_t where
  base : Nat
  default_baudrate : Nat
deriving DecidableEq, Repr

/-- Device data structure, from `struct arm_uart_dev_data_t`
(arm_uart_drv.h lines 38-43): `state` indicates whether the driver is
initialized, plus the shadow `system_clk` and `baudrate` fields. -/
structure arm_uart_dev_data_t where
  state : Nat
  system_clk : Nat
  baudrate : Nat
deriving DecidableEq, Repr

/-- Modelled from the spec: the memory-mapped register block at `cfg.base`
(spec.md §6 register map); the registers themselves are not declared in the
header.  Bit layout chosen here (the spec leaves it platform-specific):
`status` bit 0 = TX-ready, bit 1 = RX-ready; `intenable` bit 0 = TX-IRQ
enable, bit 1 = RX-IRQ enable; `intstatus` bit 0 = TX latch, bit 1 = RX
latch; `ctrl` bit 0 = TX enable, bit 1 = RX enable. -/
structure uart_regs_t where
  data : Nat
  bauddiv : Nat
  status : Nat
  intenable : Nat
  intstatus : Nat
  ctrl : Nat
deriving DecidableEq, Repr

/-- Device structure, from `struct arm_uart_dev_t` (arm_uart_drv.h lines
46-49), extended with the register block the operations act on: the C struct
holds pointers to `cfg` and `data`; the register block lives at `cfg.base`. -/
structure arm_uart_dev_t where
  cfg : arm_uart_dev_cfg_t
  data : arm_uart_dev_data_t
  regs : uart_regs_t
deriving DecidableEq, Repr

/-- Error enumeration, from `enum arm_uart_error_t` (arm_uart_drv.h lines
52-58). -/
inductive arm_uart_error_t where
  | ARM_UART_ERR_NONE
  | ARM_UART_ERR_INVALID_ARG
  | ARM_UART_ERR_INVALID_BAUD
  | ARM_UART_ERR_NOT_INIT
  | ARM_UART_ERR_NOT_READY
deriving DecidableEq, Repr

/-- Numeric value of each enumerator under C semantics: the header gives
`ARM_UART_ERR_NONE = 0` explicitly and no initializer on the rest, so each
subsequent enumerator is the previous one plus one (C11 §6.7.2.2). -/
def arm_uart_error_t.toNat : arm_uart_error_t → Nat
  | .ARM_UART_ERR_NONE => 0
  | .ARM_UART_ERR_INVALID_ARG => 1
  | .ARM_UART_ERR_INVALID_BAUD => 2
  | .ARM_UART_ERR_NOT_INIT => 3
  | .ARM_UART_ERR_NOT_READY => 4

/-- IRQ source enumeration, from `enum arm_uart_irq_t` (arm_uart_drv.h lines
60-64). -/
inductive arm_uart_irq_t where
  | ARM_UART_IRQ_RX
  | ARM_UART_IRQ_TX
  | ARM_UART_IRQ_COMBINED
deriving DecidableEq, Repr

/-- Modelled from the spec: the `state` value meaning "initialized" (spec.md
§3 `initialized: bool`; the header stores it in a `uint32_t state`). -/
def ARM_UART_INITIALIZED : Nat := 1

/-- Modelled from the spec: platform parameters of the divisor computation
(spec.md §4.1 key algorithm) — the oversampling factor and the representable
divisor range `[divisor_min, divisor_max]` for the register's bit width.
The spec leaves their concrete values to the platform. -/
structure uart_hw_params_t where
  ovs : Nat
  divisor_min : Nat
  divisor_max : Nat
deriving DecidableEq, Repr

/-- Modelled from the spec: the baud-rate divisor computation (spec.md §4.1
key algorithm): `divisor = round(system_clock / (ovs * baud_rate))`,
round-to-nearest with ties rounded up, which over the naturals is
`(2*clk + m) / (2*m)` for `m = ovs * baud`. -/
def uart_divisor (p : uart_hw_params_t) (clk baud : Nat) : Nat :=
  (2 * clk + p.ovs * baud) / (2 * (p.ovs * baud))

/-- Modelled from the spec: the divisor acceptance test
`divisor_min ≤ divisor ≤ divisor_max` (spec.md §4.1 key algorithm). -/
def divisor_ok (p : uart_hw_params_t) (d : Nat) : Bool :=
  decide (p.divisor_min ≤ d) && decide (d ≤ p.divisor_max)

/-- Setting bit `b` of a register word. -/
def set_bit (x b : Nat) : Nat := x ||| 2 ^ b

/-- Clearing bit `b` of a register word. -/
def clear_bit (x b : Nat) : Nat := x - (x &&& 2 ^ b)

/-- Modelled from the spec: `arm_uart_init` (declared at arm_uart_drv.h lines
77-78; implementation absent).  Per spec.md §4.1: programs the peripheral
with the *default* baud rate from config and the given clock; sets
`initialized`, stores `system_clk`, `baudrate := default`; returns
`ERR_INVALID_BAUD` if the divisor for the default baud rate at this clock is
out of representable range, leaving the prior state unchanged (spec.md §4
failure semantics). -/
def arm_uart_init (p : uart_hw_params_t) (u : arm_uart_dev_t)
    (system_clk : Nat) : arm_uart_error_t × arm_uart_dev_t :=
  let d := uart_divisor p system_clk u.cfg.default_baudrate
  if divisor_ok p d then
    (.ARM_UART_ERR_NONE,
      { u with
        data := { state := ARM_UART_INITIALIZED, system_clk := system_clk,
                  baudrate := u.cfg.default_baudrate },
        regs := { u.regs with bauddiv := d } })
  else (.ARM_UART_ERR_INVALID_BAUD, u)

/-- Modelled from the spec: `arm_uart_set_baudrate` (declared at
arm_uart_drv.h lines 90-91; implementation absent).  Per spec.md §4.1:
recomputes the divisor from the current `system_clk` and the requested rate,
reprograms the baud-rate register and updates the shadow `baudrate`; returns
`ERR_INVALID_BAUD` if the rate is zero or yields an out-of-range divisor,
leaving the prior state unchanged. -/
def arm_uart_set_baudrate (p : uart_hw_params_t) (u : arm_uart_dev_t)
    (baudrate : Nat) : arm_uart_error_t × arm_uart_dev_t :=
  if baudrate = 0 then (.ARM_UART_ERR_INVALID_BAUD, u)
  else
    let d := uart_divisor p u.data.system_clk baudrate
    if divisor_ok p d then
      (.ARM_UART_ERR_NONE,
        { u with
          data := { u.data with baudrate := baudrate },
          regs := { u.regs with bauddiv := d } })
    else (.ARM_UART_ERR_INVALID_BAUD, u)

/-- Modelled from the spec: `arm_uart_get_baudrate` (declared at
arm_uart_drv.h line 102; implementation absent).  Per spec.md §4.1: returns
the stored `baudrate` shadow field, no register read, no error path. -/
def arm_uart_get_baudrate (u : arm_uart_dev_t) : Nat :=
  u.data.baudrate

/-- Modelled from the spec: `arm_uart_set_clock` (declared at arm_uart_drv.h
lines 114-115; implementation absent).  Per spec.md §4.1: updates
`system_clk` and recomputes/reprograms the divisor using the *current*
`baudrate`; returns `ERR_INVALID_BAUD` if the divisor is out of range,
leaving the prior state unchanged. -/
def arm_uart_set_clock (p : uart_hw_params_t) (u : arm_uart_dev_t)
    (system_clk : Nat) : arm_uart_error_t × arm_uart_dev_t :=
  let d := uart_divisor p system_clk u.data.baudrate
  if divisor_ok p d then
    (.ARM_UART_ERR_NONE,
      { u with
        data := { u.data with system_clk := system_clk },
        regs := { u.regs with bauddiv := d } })
  else (.ARM_UART_ERR_INVALID_BAUD, u)

/-- Modelled from the spec: `arm_uart_tx_ready` (declared at arm_uart_drv.h
line 171; implementation absent).  Per spec.md §4.1: polls the hardware
TX-ready status bit, returning 1 if TX is ready and 0 otherwise. -/
def arm_uart_tx_ready (u : arm_uart_dev_t) : Nat :=
  u.regs.status % 2

/-- Modelled from the spec: `arm_uart_rx_ready` (declared at arm_uart_drv.h
line 202; implementation absent).  Per spec.md §4.1: polls the hardware
RX-ready status bit, returning 1 if RX has data and 0 otherwise. -/
def arm_uart_rx_ready (u : arm_uart_dev_t) : Nat :=
  u.regs.status / 2 % 2

/-- Modelled from the spec: `arm_uart_read` (declared at arm_uart_drv.h line
127; implementation absent).  Per spec.md §4.1 and §5: non-blocking; returns
`ERR_NOT_READY` immediately when no data is pending, else reads one byte from
the RX data register.  The returned byte is the middle component (0 on
failure, where the C code leaves `*byte` untouched). -/
def arm_uart_read (u : arm_uart_dev_t) :
    arm_uart_error_t × Nat × arm_uart_dev_t :=
  if arm_uart_rx_ready u = 1 then
    (.ARM_UART_ERR_NONE, u.regs.data % 256, u)
  else (.ARM_UART_ERR_NOT_READY, 0, u)

/-- Modelled from the spec: `arm_uart_write` (declared at arm_uart_drv.h line
140; implementation absent).  Per spec.md §4.1, §5 and §8 scenario: when
`tx_ready() == 0` (TX buffer full) it returns `ERR_NOT_READY` with no
register write; otherwise it writes the byte to the TX data register. -/
def arm_uart_write (u : arm_uart_dev_t) (byte : Nat) :
    arm_uart_error_t × arm_uart_dev_t :=
  if arm_uart_tx_ready u = 1 then
    (.ARM_UART_ERR_NONE,
      { u with regs := { u.regs with data := byte % 256 } })
  else (.ARM_UART_ERR_NOT_READY, u)

/-- Modelled from the spec: `arm_uart_irq_tx_enable` (arm_uart_drv.h line
151; implementation absent).  Sets the TX interrupt-enable bit; returns
`ERR_NONE` (spec.md §4.1). -/
def arm_uart_irq_tx_enable (u : arm_uart_dev_t) :
    arm_uart_error_t × arm_uart_dev_t :=
  (.ARM_UART_ERR_NONE,
    { u with regs := { u.regs with intenable := set_bit u.regs.intenable 0 } })

/-- Modelled from the spec: `arm_uart_irq_tx_disable` (arm_uart_drv.h line
160; implementation absent).  Clears the TX interrupt-enable bit; effect-only
(spec.md §4.1). -/
def arm_uart_irq_tx_disable (u : arm_uart_dev_t) : arm_uart_dev_t :=
  { u with regs := { u.regs with intenable := clear_bit u.regs.intenable 0 } }

/-- Modelled from the spec: `arm_uart_irq_rx_enable` (arm_uart_drv.h line
182; implementation absent).  Sets the RX interrupt-enable bit; returns
`ERR_NONE` (spec.md §4.1). -/
def arm_uart_irq_rx_enable (u : arm_uart_dev_t) :
    arm_uart_error_t × arm_uart_dev_t :=
  (.ARM_UART_ERR_NONE,
    { u with regs := { u.regs with intenable := set_bit u.regs.intenable 1 } })

/-- Modelled from the spec: `arm_uart_irq_rx_disable` (arm_uart_drv.h line
191; implementation absent).  Clears the RX interrupt-enable bit; effect-only
(spec.md §4.1). -/
def arm_uart_irq_rx_disable (u : arm_uart_dev_t) : arm_uart_dev_t :=
  { u with regs := { u.regs with intenable := clear_bit u.regs.intenable 1 } }

/-- Modelled from the spec: `arm_uart_clear_interrupt` (arm_uart_drv.h lines
212-213; implementation absent).  Clears the pending-interrupt latch for the
given source; `COMBINED` clears both latches (spec.md §4.1). -/
def arm_uart_clear_interrupt (u : arm_uart_dev_t) (irq : arm_uart_irq_t) :
    arm_uart_dev_t :=
  match irq with
  | .ARM_UART_IRQ_TX =>
    { u with regs := { u.regs with intstatus := clear_bit u.regs.intstatus 0 } }
  | .ARM_UART_IRQ_RX =>
    { u with regs := { u.regs with intstatus := clear_bit u.regs.intstatus 1 } }
  | .ARM_UART_IRQ_COMBINED =>
    { u with regs := { u.regs with
        intstatus := clear_bit (clear_bit u.regs.intstatus 0) 1 } }

/-- Modelled from the spec: `arm_uart_tx_enable` (arm_uart_drv.h line 224;
implementation absent).  Sets the TX-enable control bit; returns `ERR_NONE`
(spec.md §4.1). -/
def arm_uart_tx_enable (u : arm_uart_dev_t) :
    arm_uart_error_t × arm_uart_dev_t :=
  (.ARM_UART_ERR_NONE,
    { u with regs := { u.regs with ctrl := set_bit u.regs.ctrl 0 } })

/-- Modelled from the spec: `arm_uart_tx_disable` (arm_uart_drv.h line 233;
implementation absent).  Clears the TX-enable control bit; effect-only
(spec.md §4.1). -/
def arm_uart_tx_disable (u : arm_uart_dev_t) : arm_uart_dev_t :=
  { u with regs := { u.regs with ctrl := clear_bit u.regs.ctrl 0 } }

/-- Modelled from the spec: `arm_uart_rx_enable` (arm_uart_drv.h line 244;
implementation absent).  Sets the RX-enable control bit; returns `ERR_NONE`
(spec.md §4.1). -/
def arm_uart_rx_enable (u : arm_uart_dev_t) :
    arm_uart_error_t × arm_uart_dev_t :=
  (.ARM_UART_ERR_NONE,
    { u with regs := { u.regs with ctrl := set_bit u.regs.ctrl 1 } })

/-- Modelled from the spec: `arm_uart_rx_disable` (arm_uart_drv.h line 253;
implementation absent).  Clears the RX-enable control bit; effect-only
(spec.md §4.1). -/
def arm_uart_rx_disable (u : arm_uart_dev_t) : arm_uart_dev_t :=
  { u with regs := { u.regs with ctrl := clear_bit u.regs.ctrl 1 } }

/-- Test fixture: a CMSDK-style platform with oversampling factor 16 and a
20-bit divisor register, minimum divisor 1. -/
def test_params : uart_hw_params_t :=
  { ovs := 16, divisor_min := 1, divisor_max := 1048575 }

/-- Test fixture: a device with default baudrate 115200, current clock
48 MHz, current baudrate 9600, all registers 0. -/
def test_dev : arm_uart_dev_t :=
  { cfg := { base := 0, default_baudrate := 115200 }
    data := { state := 0, system_clk := 48000000, baudrate := 9600 }
    regs := { data := 0, bauddiv := 0, status := 0, intenable := 0,
              intstatus := 0, ctrl := 0 } }

/-- Spec-side statement of the rounding policy (spec.md §4.1 key algorithm,
written from the spec's words, for comparison with `uart_divisor`):
the divisor `n` is round-to-nearest of `clk / (ovs * baud)` with ties rounded
up, i.e. `n - clk/(ovs*baud) ≤ 1/2` and `clk/(ovs*baud) - n < 1/2`; cleared
of denominators over the naturals with `m = ovs * baud`:
`2*n*m ≤ 2*clk + m` and `2*clk + m < 2*(n+1)*m`. -/
def divisor_round_spec (p : uart_hw_params_t) (clk baud : Nat) : Prop :=
  2 * uart_divisor p clk baud * (p.ovs * baud) ≤ 2 * clk + p.ovs * baud ∧
  2 * clk + p.ovs * baud < 2 * (uart_divisor p clk baud + 1) * (p.ovs * baud)

/-- Spec-side statement of the all-or-nothing gating on the divisor range
test (spec.md §4.1 key algorithm, written from the spec's words): the result
`r` of an operation on prior state `u` with computed divisor `d` is `ERR_NONE`
with the fully updated state exactly when `divisor_min ≤ d ≤ divisor_max`,
and otherwise `ERR_INVALID_BAUD` with the prior state returned untouched. -/
def divisor_gated (p : uart_hw_params_t) (u : arm_uart_dev_t) (d : Nat)
    (updated : arm_uart_dev_t) (r : arm_uart_error_t × arm_uart_dev_t) :
    Prop :=
  r = if divisor_ok p d then (.ARM_UART_ERR_NONE, updated)
      else (.ARM_UART_ERR_INVALID_BAUD, u)

/-- Claim C5: for every possible bit pattern of the hardware status register,
`arm_uart_tx_ready` and `arm_uart_rx_ready` return only the values 0 or 1,
never any other value. -/
theorem C5_ready_returns_zero_or_one (u : arm_uart_dev_t) :
    (arm_uart_tx_ready u = 0 ∨ arm_uart_tx_ready u = 1) ∧
    (arm_uart_rx_ready u = 0 ∨ arm_uart_rx_ready u = 1) := by
  unfold arm_uart_tx_ready arm_uart_rx_ready
  exact ⟨Nat.mod_two_eq_zero_or_one _, Nat.mod_two_eq_zero_or_one _⟩

/-- Claim C10: `ARM_UART_ERR_NONE` has numeric value 0 and the five error
codes of `arm_uart_error_t` are pairwise distinct. -/
theorem C10_error_codes_distinct :
    arm_uart_error_t.toNat .ARM_UART_ERR_NONE = 0 ∧
    arm_uart_error_t.toNat .ARM_UART_ERR_NONE ≠
      arm_uart_error_t.toNat .ARM_UART_ERR_INVALID_ARG ∧
    arm_uart_error_t.toNat .ARM_UART_ERR_NONE ≠
      arm_uart_error_t.toNat .ARM_UART_ERR_INVALID_BAUD ∧
    arm_uart_error_t.toNat .ARM_UART_ERR_NONE ≠
      arm_uart_error_t.toNat .ARM_UART_ERR_NOT_INIT ∧
    arm_uart_error_t.toNat .ARM_UART_ERR_NONE ≠
      arm_uart_error_t.toNat .ARM_UART_ERR_NOT_READY ∧
    arm_uart_error_t.toNat .ARM_UART_ERR_INVALID_ARG ≠
      arm_uart_error_t.toNat .ARM_UART_ERR_INVALID_BAUD ∧
    arm_uart_error_t.toNat .ARM_UART_ERR_INVALID_ARG ≠
      arm_uart_error_t.toNat .ARM_UART_ERR_NOT_INIT ∧
    arm_uart_error_t.toNat .ARM_UART_ERR_INVALID_ARG ≠
      arm_uart_error_t.toNat .ARM_UART_ERR_NOT_READY ∧
    arm_uart_error_t.toNat .ARM_UART_ERR_INVALID_BAUD ≠
      arm_uart_error_t.toNat .ARM_UART_ERR_NOT_INIT ∧
    arm_uart_error_t.toNat .ARM_UART_ERR_INVALID_BAUD ≠
      arm_uart_error_t.toNat .ARM_UART_ERR_NOT_READY ∧
    arm_uart_error_t.toNat .ARM_UART_ERR_NOT_INIT ≠
      arm_uart_error_t.toNat .ARM_UART_ERR_NOT_READY := by
  decide

/-- Claim C1: for every pair whose computed divisor lies within
`[divisor_min, divisor_max]`, `set_baudrate` followed by `get_baudrate`
returns exactly the requested rate, independent of rounding error in the
hardware divisor. -/
theorem C1_set_then_get_baudrate_roundtrip (p : uart_hw_params_t)
    (u : arm_uart_dev_t) (baud : Nat) (hb : 0 < baud)
    (hok : divisor_ok p (uart_divisor p u.data.system_clk baud) = true) :
    arm_uart_get_baudrate (arm_uart_set_baudrate p u baud).2 = baud := by
  unfold arm_uart_set_baudrate arm_uart_get_baudrate
  rw [if_neg (by omega : ¬ baud = 0)]
  simp only [hok, if_true]

/-- Witness for C1 at a concrete input: 115200 baud at a 48 MHz clock on the
test platform round-trips through the shadow field. -/
theorem C1_witness :
    0 < 115200 ∧
    divisor_ok test_params
      (uart_divisor test_params test_dev.data.system_clk 115200) = true ∧
    arm_uart_get_baudrate
      (arm_uart_set_baudrate test_params test_dev 115200).2 = 115200 :=
  ⟨by decide, by decide,
    C1_set_then_get_baudrate_roundtrip test_params test_dev 115200
      (by decide) (by decide)⟩

/-- Claim C2: for every baudrate argument that is zero or whose divisor at
the current system clock is out of range, `arm_uart_set_baudrate` returns
`ARM_UART_ERR_INVALID_BAUD` and leaves the whole device state — shadow
fields and hardware registers — unchanged. -/
theorem C2_set_baudrate_invalid_rejected (p : uart_hw_params_t)
    (u : arm_uart_dev_t) (baud : Nat)
    (h : baud = 0 ∨
      divisor_ok p (uart_divisor p u.data.system_clk baud) = false) :
    arm_uart_set_baudrate p u baud = (.ARM_UART_ERR_INVALID_BAUD, u) := by
  unfold arm_uart_set_baudrate
  rcases h with h | h
  · simp only [h, if_true]
  · by_cases hz : baud = 0
    · simp only [hz, if_true]
    · simp only [hz, if_false, h, Bool.false_eq_true]

/-- Witness for C2 at a concrete input: `set_baudrate(0)` is rejected and the
device state is returned untouched. -/
theorem C2_witness :
    ((0 : Nat) = 0 ∨
      divisor_ok test_params
        (uart_divisor test_params test_dev.data.system_clk 0) = false) ∧
    arm_uart_set_baudrate test_params test_dev 0 =
      (.ARM_UART_ERR_INVALID_BAUD, test_dev) :=
  ⟨Or.inl rfl,
    C2_set_baudrate_invalid_rejected test_params test_dev 0 (Or.inl rfl)⟩

/-- Claim C6: whenever the TX-ready status bit is clear, `arm_uart_write`
returns `ARM_UART_ERR_NOT_READY` and modifies no register: the device state
is returned exactly as it was. -/
theorem C6_write_not_ready_rejected (u : arm_uart_dev_t) (byte : Nat)
    (h : arm_uart_tx_ready u = 0) :
    arm_uart_write u byte = (.ARM_UART_ERR_NOT_READY, u) := by
  unfold arm_uart_write
  rw [if_neg (by omega : ¬ arm_uart_tx_ready u = 1)]

/-- Witness for C6 at a concrete input: on the test device (status register
all zero) a write is refused and the state is unchanged. -/
theorem C6_witness :
    arm_uart_tx_ready test_dev = 0 ∧
    arm_uart_write test_dev 65 = (.ARM_UART_ERR_NOT_READY, test_dev) :=
  ⟨by decide, C6_write_not_ready_rejected test_dev 65 (by decide)⟩

/-- Helper: characterisation of round-to-nearest with ties rounded up over
the naturals: for `m > 0`, `n = (2*a + m) / (2*m)` is the unique natural with
`n - a/m ≤ 1/2` and `a/m - n < 1/2`, i.e. `2*n*m ≤ 2*a + m < 2*(n+1)*m`. -/
theorem round_half_up_charac (a m : Nat) (hm : 0 < m) :
    2 * ((2 * a + m) / (2 * m)) * m ≤ 2 * a + m ∧
    2 * a + m < 2 * ((2 * a + m) / (2 * m) + 1) * m := by
  have h2m : 0 < 2 * m := by omega
  have hdm := Nat.div_add_mod (2 * a + m) (2 * m)
  have hlt := Nat.mod_lt (2 * a + m) h2m
  set q := (2 * a + m) / (2 * m) with hq
  set r := (2 * a + m) % (2 * m) with hr
  constructor
  · have e1 : 2 * q * m = 2 * m * q := by ring
    rw [e1]
    exact Nat.le.intro hdm
  · have e2 : 2 * (q + 1) * m = 2 * m * q + 2 * m := by ring
    rw [e2, ← hdm]
    exact Nat.add_lt_add_left hlt _

/-- Claim C3: every divisor-programming operation (`init`, `set_baudrate`,
`set_clock`) computes the divisor as round-to-nearest of
`system_clock / (ovs * baud_rate)` with ties rounded up (never truncation),
accepts it exactly when `divisor_min ≤ divisor ≤ divisor_max`, and otherwise
fails with `ARM_UART_ERR_INVALID_BAUD` leaving the previously programmed
state unchanged. -/
theorem C3_divisor_rounding_and_gating (p : uart_hw_params_t)
    (u : arm_uart_dev_t) (clk baud : Nat) (hm : 0 < p.ovs * baud) :
    divisor_round_spec p clk baud ∧
    divisor_gated p u (uart_divisor p u.data.system_clk baud)
      { u with
        data := { u.data with baudrate := baud },
        regs := { u.regs with
          bauddiv := uart_divisor p u.data.system_clk baud } }
      (arm_uart_set_baudrate p u baud) ∧
    divisor_gated p u (uart_divisor p clk u.cfg.default_baudrate)
      { u with
        data := { state := ARM_UART_INITIALIZED, system_clk := clk,
                  baudrate := u.cfg.default_baudrate },
        regs := { u.regs with
          bauddiv := uart_divisor p clk u.cfg.default_baudrate } }
      (arm_uart_init p u clk) ∧
    divisor_gated p u (uart_divisor p clk u.data.baudrate)
      { u with
        data := { u.data with system_clk := clk },
        regs := { u.regs with
          bauddiv := uart_divisor p clk u.data.baudrate } }
      (arm_uart_set_clock p u clk) := by
  refine ⟨?_, ?_, ?_, ?_⟩
  · unfold divisor_round_spec uart_divisor
    exact round_half_up_charac clk (p.ovs * baud) hm
  · unfold divisor_gated arm_uart_set_baudrate
    have hz : ¬ baud = 0 := by
      intro hzz
      rw [hzz] at hm
      simp at hm
    rw [if_neg hz]
  · rfl
  · rfl

/-- Witness for C3 at a concrete input: the test platform at a 48 MHz clock
and 115200 baud satisfies the rounding characterisation, and all three
operations are gated on the divisor range test. -/
theorem C3_witness :
    0 < test_params.ovs * 115200 ∧
    (divisor_round_spec test_params 48000000 115200 ∧
     divisor_gated test_params test_dev
       (uart_divisor test_params test_dev.data.system_clk 115200)
       { test_dev with
         data := { test_dev.data with baudrate := 115200 },
         regs := { test_dev.regs with
           bauddiv := uart_divisor test_params test_dev.data.system_clk
             115200 } }
       (arm_uart_set_baudrate test_params test_dev 115200) ∧
     divisor_gated test_params test_dev
       (uart_divisor test_params 48000000 test_dev.cfg.default_baudrate)
       { test_dev with
         data := { state := ARM_UART_INITIALIZED, system_clk := 48000000,
                   baudrate := test_dev.cfg.default_baudrate },
         regs := { test_dev.regs with
           bauddiv := uart_divisor test_params 48000000
             test_dev.cfg.default_baudrate } }
       (arm_uart_init test_params test_dev 48000000) ∧
     divisor_gated test_params test_dev
       (uart_divisor test_params 48000000 test_dev.data.baudrate)
       { test_dev with
         data := { test_dev.data with system_clk := 48000000 },
         regs := { test_dev.regs with
           bauddiv := uart_divisor test_params 48000000
             test_dev.data.baudrate } }
       (arm_uart_set_clock test_params test_dev 48000000)) :=
  ⟨by decide,
    C3_divisor_rounding_and_gating test_params test_dev 48000000 115200
      (by decide)⟩

/-- Helper: when the divisor check for the default baud rate passes,
`arm_uart_init` succeeds and produces the fully updated state. -/
theorem arm_uart_init_ok (p : uart_hw_params_t) (u : arm_uart_dev_t)
    (clk : Nat)
    (hok : divisor_ok p (uart_divisor p clk u.cfg.default_baudrate) = true) :
    arm_uart_init p u clk =
      (.ARM_UART_ERR_NONE,
        { u with
          data := { state := ARM_UART_INITIALIZED, system_clk := clk,
                    baudrate := u.cfg.default_baudrate },
          regs := { u.regs with
            bauddiv := uart_divisor p clk u.cfg.default_baudrate } }) := by
  unfold arm_uart_init
  simp only [hok, if_true]

/-- Helper: when the divisor check for the default baud rate fails,
`arm_uart_init` fails and returns the prior state untouched. -/
theorem arm_uart_init_err (p : uart_hw_params_t) (u : arm_uart_dev_t)
    (clk : Nat)
    (hok : divisor_ok p (uart_divisor p clk u.cfg.default_baudrate)
      = false) :
    arm_uart_init p u clk = (.ARM_UART_ERR_INVALID_BAUD, u) := by
  unfold arm_uart_init
  simp only [hok, Bool.false_eq_true, if_false]

/-- Helper: `arm_uart_set_baudrate` either leaves the state unchanged or
performs exactly the full shadow-field and divisor-register update. -/
theorem arm_uart_set_baudrate_shape (p : uart_hw_params_t)
    (u : arm_uart_dev_t) (baud : Nat) :
    (arm_uart_set_baudrate p u baud).2 = u ∨
    (arm_uart_set_baudrate p u baud).2 =
      { u with
        data := { u.data with baudrate := baud },
        regs := { u.regs with
          bauddiv := uart_divisor p u.data.system_clk baud } } := by
  unfold arm_uart_set_baudrate
  by_cases hz : baud = 0
  · left
    simp only [hz, if_true]
  · cases hok : divisor_ok p (uart_divisor p u.data.system_clk baud) with
    | false =>
      left
      simp only [hz, if_false, hok, Bool.false_eq_true]
    | true =>
      right
      simp only [hz, if_false, hok, if_true]

/-- Claim C4: `arm_uart_init` always reprograms the peripheral with the
default baud rate: after a successful `init(clk)`, any `set_baudrate(X)`,
then `init(clk)` again, the second init succeeds, `get_baudrate` returns the
config's default baudrate (not X), the initialized flag is intact, and the
whole device state equals the state after the first init (no corruption). -/
theorem C4_init_reprograms_default (p : uart_hw_params_t)
    (u : arm_uart_dev_t) (clk X : Nat)
    (h : (arm_uart_init p u clk).1 = .ARM_UART_ERR_NONE) :
    (arm_uart_init p
        (arm_uart_set_baudrate p (arm_uart_init p u clk).2 X).2 clk).1
      = .ARM_UART_ERR_NONE ∧
    arm_uart_get_baudrate
        (arm_uart_init p
          (arm_uart_set_baudrate p (arm_uart_init p u clk).2 X).2 clk).2
      = u.cfg.default_baudrate ∧
    ((arm_uart_init p
        (arm_uart_set_baudrate p (arm_uart_init p u clk).2 X).2
        clk).2).data.state = ARM_UART_INITIALIZED ∧
    (arm_uart_init p
        (arm_uart_set_baudrate p (arm_uart_init p u clk).2 X).2 clk).2
      = (arm_uart_init p u clk).2 := by
  have hok : divisor_ok p (uart_divisor p clk u.cfg.default_baudrate)
      = true := by
    cases hk : divisor_ok p (uart_divisor p clk u.cfg.default_baudrate) with
    | false =>
      rw [arm_uart_init_err p u clk hk] at h
      simp at h
    | true => rfl
  rw [arm_uart_init_ok p u clk hok]
  dsimp only
  rcases arm_uart_set_baudrate_shape p
      ({ u with
         data := { state := ARM_UART_INITIALIZED, system_clk := clk,
                   baudrate := u.cfg.default_baudrate },
         regs := { u.regs with
           bauddiv := uart_divisor p clk u.cfg.default_baudrate } }) X
      with h2 | h2
  · rw [h2]
    simp only [arm_uart_init, arm_uart_get_baudrate, hok, if_true]
    exact ⟨trivial, trivial, trivial, trivial⟩
  · rw [h2]
    simp only [arm_uart_init, arm_uart_get_baudrate, hok, if_true]
    exact ⟨trivial, trivial, trivial, trivial⟩

/-- Witness for C4 at a concrete input: init at 48 MHz, set baudrate 300,
init again; the second init succeeds and restores the default 115200. -/
theorem C4_witness :
    (arm_uart_init test_params test_dev 48000000).1 = .ARM_UART_ERR_NONE ∧
    ((arm_uart_init test_params
        (arm_uart_set_baudrate test_params
          (arm_uart_init test_params test_dev 48000000).2 300).2 48000000).1
      = .ARM_UART_ERR_NONE ∧
    arm_uart_get_baudrate
        (arm_uart_init test_params
          (arm_uart_set_baudrate test_params
            (arm_uart_init test_params test_dev 48000000).2 300).2
          48000000).2
      = test_dev.cfg.default_baudrate ∧
    ((arm_uart_init test_params
        (arm_uart_set_baudrate test_params
          (arm_uart_init test_params test_dev 48000000).2 300).2
        48000000).2).data.state = ARM_UART_INITIALIZED ∧
    (arm_uart_init test_params
        (arm_uart_set_baudrate test_params
          (arm_uart_init test_params test_dev 48000000).2 300).2 48000000).2
      = (arm_uart_init test_params test_dev 48000000).2) :=
  ⟨by decide,
    C4_init_reprograms_default test_params test_dev 48000000 300 (by decide)⟩

/-- Helper: when the divisor check for the current baudrate at the new clock
passes, `arm_uart_set_clock` succeeds and produces the full update. -/
theorem arm_uart_set_clock_ok (p : uart_hw_params_t) (u : arm_uart_dev_t)
    (clk : Nat)
    (hok : divisor_ok p (uart_divisor p clk u.data.baudrate) = true) :
    arm_uart_set_clock p u clk =
      (.ARM_UART_ERR_NONE,
        { u with
          data := { u.data with system_clk := clk },
          regs := { u.regs with
            bauddiv := uart_divisor p clk u.data.baudrate } }) := by
  unfold arm_uart_set_clock
  simp only [hok, if_true]

/-- Helper: when the divisor check for the current baudrate at the new clock
fails, `arm_uart_set_clock` fails and returns the prior state untouched. -/
theorem arm_uart_set_clock_err (p : uart_hw_params_t) (u : arm_uart_dev_t)
    (clk : Nat)
    (hok : divisor_ok p (uart_divisor p clk u.data.baudrate) = false) :
    arm_uart_set_clock p u clk = (.ARM_UART_ERR_INVALID_BAUD, u) := by
  unfold arm_uart_set_clock
  simp only [hok, Bool.false_eq_true, if_false]

/-- Helper: `arm_uart_read` returns the device state untouched in both the
ready and the not-ready branch. -/
theorem arm_uart_read_frame (u : arm_uart_dev_t) :
    (arm_uart_read u).2.2 = u := by
  unfold arm_uart_read
  split <;> rfl

/-- Helper: `arm_uart_write` either leaves the state unchanged or writes the
byte into the TX data register only. -/
theorem arm_uart_write_shape (u : arm_uart_dev_t) (byte : Nat) :
    (arm_uart_write u byte).2 = u ∨
    (arm_uart_write u byte).2 =
      { u with regs := { u.regs with data := byte % 256 } } := by
  unfold arm_uart_write
  split
  · exact Or.inr rfl
  · exact Or.inl rfl

/-- Claim C7: the initialized flag is monotone over the operation set: no
operation other than `init` changes `data.state`, and `init` either sets it
to `ARM_UART_INITIALIZED` or leaves it unchanged — so none resets it from
true to false. -/
theorem C7_initialized_flag_monotone (p : uart_hw_params_t)
    (u : arm_uart_dev_t) (baud clk byte : Nat) (irq : arm_uart_irq_t) :
    (arm_uart_set_baudrate p u baud).2.data.state = u.data.state ∧
    (arm_uart_set_clock p u clk).2.data.state = u.data.state ∧
    (arm_uart_read u).2.2.data.state = u.data.state ∧
    (arm_uart_write u byte).2.data.state = u.data.state ∧
    (arm_uart_irq_tx_enable u).2.data.state = u.data.state ∧
    (arm_uart_irq_tx_disable u).data.state = u.data.state ∧
    (arm_uart_irq_rx_enable u).2.data.state = u.data.state ∧
    (arm_uart_irq_rx_disable u).data.state = u.data.state ∧
    (arm_uart_clear_interrupt u irq).data.state = u.data.state ∧
    (arm_uart_tx_enable u).2.data.state = u.data.state ∧
    (arm_uart_tx_disable u).data.state = u.data.state ∧
    (arm_uart_rx_enable u).2.data.state = u.data.state ∧
    (arm_uart_rx_disable u).data.state = u.data.state ∧
    ((arm_uart_init p u clk).2.data.state = ARM_UART_INITIALIZED ∨
      (arm_uart_init p u clk).2.data.state = u.data.state) := by
  refine ⟨?_, ?_, ?_, ?_, rfl, rfl, rfl, rfl, ?_, rfl, rfl, rfl, rfl, ?_⟩
  · rcases arm_uart_set_baudrate_shape p u baud with h | h <;> rw [h]
  · cases hok : divisor_ok p (uart_divisor p clk u.data.baudrate) with
    | false => rw [arm_uart_set_clock_err p u clk hok]
    | true => rw [arm_uart_set_clock_ok p u clk hok]
  · rw [arm_uart_read_frame u]
  · rcases arm_uart_write_shape u byte with h | h <;> rw [h]
  · cases irq <;> rfl
  · cases hok : divisor_ok p (uart_divisor p clk u.cfg.default_baudrate) with
    | false => exact Or.inr (by rw [arm_uart_init_err p u clk hok])
    | true => exact Or.inl (by rw [arm_uart_init_ok p u clk hok])

/-- Claim C8: the device configuration (base address and default baudrate)
is never mutated by any operation: for every operation and every starting
state, the `cfg` record after the call equals the `cfg` record before it. -/
theorem C8_cfg_never_mutated (p : uart_hw_params_t) (u : arm_uart_dev_t)
    (baud clk byte : Nat) (irq : arm_uart_irq_t) :
    (arm_uart_init p u clk).2.cfg = u.cfg ∧
    (arm_uart_set_baudrate p u baud).2.cfg = u.cfg ∧
    (arm_uart_set_clock p u clk).2.cfg = u.cfg ∧
    (arm_uart_read u).2.2.cfg = u.cfg ∧
    (arm_uart_write u byte).2.cfg = u.cfg ∧
    (arm_uart_irq_tx_enable u).2.cfg = u.cfg ∧
    (arm_uart_irq_tx_disable u).cfg = u.cfg ∧
    (arm_uart_irq_rx_enable u).2.cfg = u.cfg ∧
    (arm_uart_irq_rx_disable u).cfg = u.cfg ∧
    (arm_uart_clear_interrupt u irq).cfg = u.cfg ∧
    (arm_uart_tx_enable u).2.cfg = u.cfg ∧
    (arm_uart_tx_disable u).cfg = u.cfg ∧
    (arm_uart_rx_enable u).2.cfg = u.cfg ∧
    (arm_uart_rx_disable u).cfg = u.cfg := by
  refine ⟨?_, ?_, ?_, ?_, ?_, rfl, rfl, rfl, rfl, ?_, rfl, rfl, rfl, rfl⟩
  · cases hok : divisor_ok p (uart_divisor p clk u.cfg.default_baudrate) with
    | false => rw [arm_uart_init_err p u clk hok]
    | true => rw [arm_uart_init_ok p u clk hok]
  · rcases arm_uart_set_baudrate_shape p u baud with h | h <;> rw [h]
  · cases hok : divisor_ok p (uart_divisor p clk u.data.baudrate) with
    | false => rw [arm_uart_set_clock_err p u clk hok]
    | true => rw [arm_uart_set_clock_ok p u clk hok]
  · rw [arm_uart_read_frame u]
  · rcases arm_uart_write_shape u byte with h | h <;> rw [h]
  · cases irq <;> rfl

/-- Claim C9: when `arm_uart_set_clock` succeeds it stores the new system
clock, reprograms the divisor computed from the new clock and the current
baudrate, and leaves the shadow baudrate unchanged, so `get_baudrate`
returns the same value as before the call. -/
theorem C9_set_clock_preserves_baudrate (p : uart_hw_params_t)
    (u : arm_uart_dev_t) (clk : Nat)
    (h : (arm_uart_set_clock p u clk).1 = .ARM_UART_ERR_NONE) :
    (arm_uart_set_clock p u clk).2.data.system_clk = clk ∧
    (arm_uart_set_clock p u clk).2.regs.bauddiv
      = uart_divisor p clk u.data.baudrate ∧
    (arm_uart_set_clock p u clk).2.data.baudrate = u.data.baudrate ∧
    arm_uart_get_baudrate (arm_uart_set_clock p u clk).2
      = arm_uart_get_baudrate u := by
  cases hok : divisor_ok p (uart_divisor p clk u.data.baudrate) with
  | false =>
    rw [arm_uart_set_clock_err p u clk hok] at h
    simp at h
  | true =>
    rw [arm_uart_set_clock_ok p u clk hok]
    exact ⟨rfl, rfl, rfl, rfl⟩

/-- Witness for C9 at a concrete input: switching the test device to a
96 MHz clock succeeds, stores the clock, programs divisor 625 and keeps the
baudrate at 9600. -/
theorem C9_witness :
    (arm_uart_set_clock test_params test_dev 96000000).1
      = .ARM_UART_ERR_NONE ∧
    ((arm_uart_set_clock test_params test_dev 96000000).2.data.system_clk
      = 96000000 ∧
    (arm_uart_set_clock test_params test_dev 96000000).2.regs.bauddiv
      = uart_divisor test_params 96000000 test_dev.data.baudrate ∧
    (arm_uart_set_clock test_params test_dev 96000000).2.data.baudrate
      = test_dev.data.baudrate ∧
    arm_uart_get_baudrate (arm_uart_set_clock test_params test_dev 96000000).2
      = arm_uart_get_baudrate test_dev) :=
  ⟨by decide,
    C9_set_clock_preserves_baudrate test_params test_dev 96000000 (by decide)⟩
